import Mathlib

/-!
Shallow embedding of the ofxFFmpeg Recorder (src/ofxFFmpeg.h, src/ofxFFmpeg.cpp).

Modelling conventions:
* Wall-clock instants (std::chrono TimePoint, float seconds) are rationals.
  Float arithmetic on durations is modelled exactly over ℚ.
* A pixel buffer (ofPixels) is modelled by its dimensions, pixel format tag,
  an abstract identity of its underlying byte buffer (dataId), and whether the
  object owns that buffer.  `new ofPixels(p)` copies the bytes into a fresh
  buffer (a fresh dataId, owning); `setFromExternalPixels` shares the given
  buffer (same dataId, non-owning).
* size_t arithmetic wraps modulo 2^64 (sizeTCard below); the conversion of a
  negative float to size_t is undefined behaviour in C++ and is modelled as 0.
* External effects (file existence on disk, popen success, fwrite results,
  values of the atomic flags observed by the drain loop, the wall clock) are
  supplied as explicit parameters / oracle streams.
-/

namespace OfxFFmpeg

/-- Number of values of size_t on the 64-bit targets the code is built for. -/
def sizeTCard : Nat := 2 ^ 64

/-- RecorderSettings (ofxFFmpeg.h lines 6-17), defaults as in the header. -/
structure RecorderSettings where
  outputPath : String := "output.mp4"
  resX : Int := 640
  resY : Int := 480
  fps : ℚ := 30
  bitrate : Nat := 20000
  videoCodec : String := "libx264"
  extraInputArgs : String := ""
  extraOutputArgs : String := "-pix_fmt yuv420p -vsync 1 -g 1"
  allowOverwrite : Bool := true
  ffmpegPath : String := "ffmpeg"
  deriving Repr, DecidableEq

/-- A caller-supplied ofPixels object handed to addFrame. -/
structure OfPixels where
  width : Nat
  height : Nat
  pixelFormat : Nat
  allocated : Bool
  dataId : Nat
  deriving Repr, DecidableEq

/-- One ofPixels* entry of the frame queue: dimensions and format tags, the
identity of the underlying byte buffer, and whether this object owns that
buffer (`new ofPixels(p)` owns its copied bytes; an object filled by
`setFromExternalPixels` references bytes it does not own). -/
structure PixEntry where
  width : Nat
  height : Nat
  pixelFormat : Nat
  dataId : Nat
  owns : Bool
  deriving Repr, DecidableEq

/-- The Recorder state (ofxFFmpeg.h lines 38-46).  m_ffmpegPipe is modelled
by whether it is non-null (pipeOpen); time points are rationals. -/
structure RecorderState where
  settings : RecorderSettings
  isRecording : Bool
  isReady : Bool
  shouldQuitProcessing : Bool
  pipeOpen : Bool
  recordStartTime : ℚ
  lastFrameTime : ℚ
  nAddedFrames : Nat
  frames : List PixEntry
  deriving Repr, DecidableEq

/-- getRecordedDuration (ofxFFmpeg.h line 33): m_nAddedFrames / m_settings.fps. -/
def getRecordedDuration (nAdded : Nat) (fps : ℚ) : ℚ := (nAdded : ℚ) / fps

/-- The pacing computation shared by wantsFrame (lines 131-132) and addFrame
(lines 164-165): delta = (now - startTime) - recordedDuration, and the number
of due output frames is delta * fps truncated to an integer. -/
def framesDue (now startTime recordedDuration fps : ℚ) : ℤ :=
  Int.floor ((now - startTime - recordedDuration) * fps)

/-- Computation `const size_t framesToWrite = delta * fps` from the source: the
float product converted to size_t.  For a nonnegative value this truncates
toward zero (= the floor); converting a negative float is undefined behaviour
in C++ and is modelled as 0. -/
def framesToWriteAt (now startTime : ℚ) (nAdded : Nat) (fps : ℚ) : Nat :=
  (framesDue now startTime (getRecordedDuration nAdded fps) fps).toNat

/-- wantsFrame (ofxFFmpeg.cpp lines 128-136). -/
def wantsFrame (st : RecorderState) (now : ℚ) : Bool :=
  st.isRecording && st.pipeOpen &&
    0 < framesToWriteAt now st.recordStartTime st.nAddedFrames st.settings.fps

/-- The test `written == framesToWrite - 1` (ofxFFmpeg.cpp line 176) in size_t
arithmetic: when framesToWrite = 0 the subtraction wraps to SIZE_MAX. -/
def isLastTest (written ftw : Nat) : Bool :=
  written % sizeTCard == (ftw + (sizeTCard - 1)) % sizeTCard

/-- The while loop of addFrame (ofxFFmpeg.cpp lines 170-193).  `copy` is the
owning deep copy `new ofPixels(pixels)` that the first iteration allocates
(line 173; it is allocated exactly when the loop body runs at least once, so
it is passed in precomputed).  Returns the entries pushed onto the queue in
order, and the final value of `written`. -/
def addLoop (copy : PixEntry) (ftw nAdded written : Nat) : List PixEntry × Nat :=
  if nAdded = 0 ∨ written < ftw then
    -- line 176: only the entry passing the size_t test pushes `copy` itself;
    -- otherwise a fresh non-owning ofPixels referencing the bytes of copy is pushed
    let entry := if isLastTest written ftw then copy else { copy with owns := false }
    let rest := addLoop copy ftw (nAdded + 1) (written + 1)
    (entry :: rest.1, rest.2)
  else
    ([], written)
termination_by (if nAdded = 0 then 1 else 0) + (ftw - written)
decreasing_by
  rename_i h
  rcases h with h | h <;> simp [h] <;> omega

/-- addFrame (ofxFFmpeg.cpp lines 139-196).  `now` is the value Clock::now()
returns during this call (the successive reads within one call are modelled as
equal), `freshId` the identity of the byte buffer the deep copy allocates.
Returns the updated state and the returned frame count. -/
def addFrame (st : RecorderState) (pixels : OfPixels) (now : ℚ) (freshId : Nat) :
    RecorderState × Nat :=
  if !st.isRecording then (st, 0)
  else if !st.pipeOpen then (st, 0)
  else if !pixels.allocated then (st, 0)
  else
    -- lines 156-161: on the first frame the drain thread is spawned (modelled
    -- separately by processFrame) and the start time is reset to now
    let st1 := if st.nAddedFrames = 0 then
      { st with recordStartTime := now, lastFrameTime := now } else st
    let ftw := framesToWriteAt now st1.recordStartTime st1.nAddedFrames st1.settings.fps
    let copy : PixEntry :=
      { width := pixels.width, height := pixels.height,
        pixelFormat := pixels.pixelFormat, dataId := freshId, owns := true }
    let r := addLoop copy ftw st1.nAddedFrames 0
    ({ st1 with
        frames := st1.frames ++ r.1,
        nAddedFrames := st1.nAddedFrames + r.2,
        lastFrameTime := if 0 < r.2 then now else st1.lastFrameTime },
      r.2)

/-- stop (ofxFFmpeg.cpp lines 122-125): only clears the recording flag. -/
def stop (st : RecorderState) : RecorderState := { st with isRecording := false }

/-- start (ofxFFmpeg.cpp lines 39-119).  `fileExists path` models
`ofFile::doesFileExist(ofToDataPath(path, true), false)`; `openPipeSucceeds`
models whether popen returns a non-null pipe.  The command string assembly
(lines 76-100) has no observable effect on the recorder state and is not
modelled.  Note that the exists/overwrite check (line 63) reads m_settings —
the previous settings — since `m_settings = settings` only happens at
line 68. -/
def start (st : RecorderState) (settings : RecorderSettings) (forceIfNotReady : Bool)
    (fileExists : String → Bool) (openPipeSucceeds : Bool) : RecorderState × Bool :=
  if st.isRecording then (st, false)
  else if !st.isReady && !forceIfNotReady then (st, false)
  else
    -- lines 48-51: forced restart signals the old drain to quit and clears the
    -- queue (clearQueue, lines 265-276, deletes every queued entry)
    let st1 := if !st.isReady then
      { st with shouldQuitProcessing := true, frames := [] } else st
    if settings.outputPath = "" then (st1, false)
    else if fileExists st1.settings.outputPath && !st1.settings.allowOverwrite then
      (st1, false)
    else
      let s2 := { settings with
        ffmpegPath := if settings.ffmpegPath = "" then "ffmpeg" else settings.ffmpegPath }
      let st2 := { st1 with settings := s2, nAddedFrames := 0 }
      -- lines 103-105: make sure pipe is closed (closePipe sets isReady)
      let st3 := if st2.pipeOpen then { st2 with pipeOpen := false, isReady := true } else st2
      let st4 := { st3 with shouldQuitProcessing := false }
      if openPipeSucceeds then
        ({ st4 with pipeOpen := true, isReady := false, isRecording := true }, true)
      else
        -- openPipe failure path (lines 289-296) sets m_isReady = true
        ({ st4 with isReady := true }, false)

/-- What the drain loop observes from its environment during one iteration of
the inner loop of processFrame: the value of the atomic
m_shouldQuitProcessing at the loop condition (line 208), whether
`delta >= framedur` holds at line 213, and — if an fwrite happens this
iteration — the byte count it returns (line 233) and whether ferror reports an
error condition (line 236). -/
structure DrainObs where
  shouldQuit : Bool
  timeDue : Bool
  writeBytes : Nat
  writeErr : Bool
  deriving Repr, DecidableEq

/-- A record of one fwrite call made by the drain loop: the queue entry whose
bytes were passed to fwrite, the byte count fwrite returned, and the ferror
flag observed afterwards. -/
structure WriteRec where
  entry : PixEntry
  bytes : Nat
  err : Bool
  deriving Repr, DecidableEq

/-- Computation `const size_t dataLength = x * y * 3` (ofxFFmpeg.cpp line 230): the int
product converted to size_t (a negative product would be UB, modelled as 0). -/
def dataLength (s : RecorderSettings) : Nat := (s.resX * s.resY * 3).toNat

/-- A write attempt that takes the failure branch of line 236:
`written <= 0 || written != dataLength || ferror(pipe)` (for size_t,
written <= 0 means written = 0). -/
def failRec (dl : Nat) (r : WriteRec) : Bool :=
  r.bytes = 0 || r.bytes != dl || r.err

/-- The inner while loop of processFrame (ofxFFmpeg.cpp lines 208-254), as a
fuel-indexed function.  `obs i` is what the i-th inner iteration observes
(i is a global counter so one oracle stream spans the whole run); `acc` are
the fwrite records so far.  Returns `none` when the fuel runs out before the
loop exits, otherwise the next counter value, the remaining queue, the
accumulated fwrite records and the final value of needsQuit.  Queue entries
are never null in the model, so `consume` succeeds exactly when the queue is
nonempty and the null-pixels branch (line 246) is unreachable. -/
def innerDrain (obs : Nat → DrainObs) (pipeOpen : Bool) (dl : Nat) :
    Nat → Nat → List PixEntry → List WriteRec →
    Option (Nat × List PixEntry × List WriteRec × Bool)
  | 0, _, _, _ => none
  | fuel + 1, i, queue, acc =>
    match queue with
    | [] => some (i, [], acc, false)                 -- numFramesInQueue() == 0
    | p :: rest =>
      if (obs i).shouldQuit then some (i, p :: rest, acc, false)
      else if (obs i).timeDue then
        -- line 233: fwrite only runs when the pipe is non-null
        let written := if pipeOpen then (obs i).writeBytes else 0
        let acc2 := if pipeOpen then
          acc ++ [⟨p, (obs i).writeBytes, (obs i).writeErr⟩] else acc
        if written = 0 ∨ written ≠ dl ∨ (obs i).writeErr then
          some (i + 1, rest, acc2, true)             -- needsQuit = true; break
        else
          innerDrain obs pipeOpen dl fuel (i + 1) rest acc2
      else
        innerDrain obs pipeOpen dl fuel (i + 1) (p :: rest) acc

/-- The outer while loop of processFrame (ofxFFmpeg.cpp lines 201-258).
`outerObs k` is the pair (m_isRecording, m_shouldQuitProcessing) observed at
the k-th evaluation of the outer loop condition.  Each outer iteration runs
the inner loop with `innerFuel` fuel.  Returns the remaining queue and the
fwrite records when the loop exits, `none` if some fuel runs out first. -/
def outerDrain (outerObs : Nat → Bool × Bool) (obs : Nat → DrainObs)
    (pipeOpen : Bool) (dl innerFuel : Nat) :
    Nat → Nat → Nat → List PixEntry → List WriteRec →
    Option (List PixEntry × List WriteRec)
  | 0, _, _, _, _ => none
  | fuel + 1, k, i, queue, acc =>
    if (outerObs k).1 && !(outerObs k).2 then
      match innerDrain obs pipeOpen dl innerFuel i queue acc with
      | none => none
      | some (i2, queue2, acc2, needsQuit) =>
        if needsQuit then some (queue2, acc2)        -- line 255-257: break
        else outerDrain outerObs obs pipeOpen dl innerFuel fuel (k + 1) i2 queue2 acc2
    else
      some (queue, acc)

/-- processFrame (ofxFFmpeg.cpp lines 199-263): run the nested loops, then
closePipe() unconditionally (lines 302-319: the pipe handle becomes null and
m_isReady becomes true).  Returns the post-run recorder state and the list of
fwrite calls made, or `none` when the supplied fuel is insufficient. -/
def processFrame (outerObs : Nat → Bool × Bool) (obs : Nat → DrainObs)
    (outerFuel innerFuel : Nat) (st : RecorderState) :
    Option (RecorderState × List WriteRec) :=
  match outerDrain outerObs obs st.pipeOpen (dataLength st.settings) innerFuel
      outerFuel 0 0 st.frames [] with
  | none => none
  | some (queue2, recs) =>
    some ({ st with frames := queue2, pipeOpen := false, isReady := true }, recs)

/-! Concrete sample values used by the closed evaluation theorems below. -/

/-- An allocated 640x480 caller frame matching the default resolution. -/
def pixSample : OfPixels := ⟨640, 480, 1, true, 100⟩

/-- An allocated 1x1 caller frame, not matching the configured 640x480. -/
def pixSmall : OfPixels := ⟨1, 1, 1, true, 100⟩

/-- A caller frame whose pixel data is not allocated. -/
def pixUnalloc : OfPixels := ⟨640, 480, 1, false, 100⟩

/-- A recorder mid-session: recording, pipe open, one logical frame already
produced at startTime 0 with the default settings (fps = 30). -/
def stRecording : RecorderState :=
  { settings := {}, isRecording := true, isReady := false,
    shouldQuitProcessing := false, pipeOpen := true, recordStartTime := 0,
    lastFrameTime := 0, nAddedFrames := 1, frames := [] }

/-- A recorder that has started recording but not yet received a frame. -/
def stFirstFrame : RecorderState := { stRecording with nAddedFrames := 0 }

/-- An idle, ready recorder still holding the default settings. -/
def stIdle : RecorderState :=
  { settings := {}, isRecording := false, isReady := true,
    shouldQuitProcessing := false, pipeOpen := false, recordStartTime := 0,
    lastFrameTime := 0, nAddedFrames := 0, frames := [] }

/-- Settings whose output file already exists and which disallow overwrite. -/
def sTaken : RecorderSettings := { outputPath := "taken.mp4", allowOverwrite := false }

/-- Settings with an empty output path. -/
def sEmptyPath : RecorderSettings := { outputPath := "" }

/-- The on-disk situation in which only "taken.mp4" exists. -/
def fileExistsTaken : String → Bool := fun p => p == "taken.mp4"

/-- A recorder whose previous session is still draining: not recording, not
ready, with one frame still queued. -/
def stDraining : RecorderState :=
  { stIdle with isReady := false, frames := [⟨640, 480, 1, 100, true⟩] }

/-- A recorder whose previous session recorded to "taken.mp4" with overwrite
disallowed, now idle and ready. -/
def stPrevTaken : RecorderState := { stIdle with settings := sTaken }

/-- A recorder mid-drain with three frames queued, configured at a 2x1
resolution so that one raw frame is 6 bytes. -/
def stDrainW : RecorderState :=
  { settings := { resX := 2, resY := 1 }, isRecording := true, isReady := false,
    shouldQuitProcessing := false, pipeOpen := true, recordStartTime := 0,
    lastFrameTime := 0, nAddedFrames := 3,
    frames := [⟨2, 1, 1, 10, true⟩, ⟨2, 1, 1, 11, true⟩, ⟨2, 1, 1, 12, true⟩] }

/-- A drain environment in which the first fwrite succeeds (6 bytes) and every
later fwrite performs a short write of 0 bytes; no quit signal, pacing always
due. -/
def obsFailW : Nat → DrainObs := fun i => ⟨false, true, if i = 0 then 6 else 0, false⟩

/-- Outer-loop observations: recording stays true and no quit is signalled. -/
def ooAlwaysW : Nat → Bool × Bool := fun _ => (true, false)

/-- The state stDrainW ends in after the drain hits the write failure on its
second frame: pipe closed, ready again, third frame still queued. -/
def stDrain2W : RecorderState :=
  { stDrainW with frames := [⟨2, 1, 1, 12, true⟩], pipeOpen := false, isReady := true }

/-- The fwrite records of that failing run: one full write, one short write. -/
def recsFailW : List WriteRec :=
  [⟨⟨2, 1, 1, 10, true⟩, 6, false⟩, ⟨⟨2, 1, 1, 11, true⟩, 0, false⟩]

/-- A recorder with two frames queued at the 2x1 resolution. -/
def stDrainOkW : RecorderState :=
  { stDrainW with frames := [⟨2, 1, 1, 10, true⟩, ⟨2, 1, 1, 11, true⟩] }

/-- A drain environment in which every fwrite writes the full 6 bytes. -/
def obsOkW : Nat → DrainObs := fun _ => ⟨false, true, 6, false⟩

/-- Outer-loop observations for a session stopped right after the drain
entered its first iteration: recording observed true at check 0, false at
every later check; no quit. -/
def ooStopW : Nat → Bool × Bool := fun k => (k == 0, false)

/-- The state stDrainOkW ends in after a clean drain: queue empty, pipe
closed, ready. -/
def stDrainOk2W : RecorderState :=
  { stDrainOkW with frames := [], pipeOpen := false, isReady := true }

/-- The fwrite records of that clean run: both frames fully written. -/
def recsOkW : List WriteRec :=
  [⟨⟨2, 1, 1, 10, true⟩, 6, false⟩, ⟨⟨2, 1, 1, 11, true⟩, 6, false⟩]

end OfxFFmpeg

open OfxFFmpeg

/-- Helper: the addFrame while loop pushes one entry per increment of
written, and the final value of written is max (written+1) ftw when entered
with m_nAddedFrames = 0, and max written ftw otherwise.  In particular, from
written = 0 it pushes exactly one entry when m_nAddedFrames = 0 and ftw = 0,
and exactly ftw entries whenever m_nAddedFrames is nonzero. -/
theorem addLoop_spec (c : PixEntry) (ftw : Nat) : ∀ (nAdded written : Nat),
    (addLoop c ftw nAdded written).1.length + written = (addLoop c ftw nAdded written).2 ∧
    (addLoop c ftw nAdded written).2 =
      (if nAdded = 0 then max (written + 1) ftw else max written ftw) := by
  intro nAdded written
  induction nAdded, written using addLoop.induct c ftw with
  | case1 nAdded written h ih =>
    rw [addLoop]
    simp only [if_pos h]
    rcases ih with ⟨ih1, ih2⟩
    simp only [Nat.add_one_ne_zero, if_false] at ih2
    by_cases hn : nAdded = 0
    · subst hn
      simp only [List.length_cons, eq_self_iff_true, if_true]
      constructor <;> omega
    · have hw : written < ftw := by
        rcases h with h | h
        · exact absurd h hn
        · exact h
      simp only [List.length_cons, if_neg hn]
      constructor <;> omega
  | case2 nAdded written h =>
    rw [addLoop]
    simp only [if_neg h]
    push_neg at h
    simp only [if_neg h.1]
    exact ⟨by simp, by omega⟩

/-- Claim C1, counterexample: a non-first submission (m_nAddedFrames = 1)
made while recording with a valid pipe and allocated pixels, at an instant
where the pacing computation yields framesToWrite = 0, pushes no queue entry
at all and returns 0 — the submission is silently discarded, contradicting
the claim that every such call pushes at least one entry. -/
theorem C1_counterexample :
    stRecording.isRecording = true ∧ stRecording.pipeOpen = true ∧
    pixSample.allocated = true ∧ stRecording.nAddedFrames ≠ 0 ∧
    framesToWriteAt (1/30) stRecording.recordStartTime stRecording.nAddedFrames
      stRecording.settings.fps = 0 ∧
    (addFrame stRecording pixSample (1/30) 7).2 = 0 ∧
    (addFrame stRecording pixSample (1/30) 7).1.frames = [] := by
  refine ⟨rfl, rfl, rfl, by decide, ?_, ?_, ?_⟩ <;>
    simp [addFrame, addLoop, framesToWriteAt, framesDue, getRecordedDuration,
      stRecording, pixSample]

/-- Claim C1, amended: while recording with a valid pipe and allocated
pixels, the returned count always equals the number of entries pushed onto
the queue; on the first frame of a session at least one entry is pushed, and
on every later frame exactly framesToWrite entries are pushed — so a
non-first submission with framesToWrite = 0 pushes nothing and returns 0. -/
theorem C1_amended_thm (st : RecorderState) (pixels : OfPixels) (now : ℚ) (freshId : Nat)
    (hr : st.isRecording = true) (hp : st.pipeOpen = true) (ha : pixels.allocated = true) :
    (addFrame st pixels now freshId).1.frames.length
        = st.frames.length + (addFrame st pixels now freshId).2 ∧
    (st.nAddedFrames = 0 → 1 ≤ (addFrame st pixels now freshId).2) ∧
    (st.nAddedFrames ≠ 0 → (addFrame st pixels now freshId).2 =
      framesToWriteAt now st.recordStartTime st.nAddedFrames st.settings.fps) := by
  by_cases hn : st.nAddedFrames = 0 <;>
    simp only [addFrame, hr, hp, ha, hn, Bool.not_true, Bool.false_eq_true, if_false,
      if_true, eq_self_iff_true, List.length_append, ne_eq, not_true_eq_false,
      not_false_eq_true, forall_const, IsEmpty.forall_iff, true_and, and_true,
      false_implies, true_implies]
  · have hproj : ({ st with recordStartTime := now, lastFrameTime := now }
        : RecorderState).settings.fps = st.settings.fps := rfl
    rw [hproj]
    have h := addLoop_spec
      ⟨pixels.width, pixels.height, pixels.pixelFormat, freshId, true⟩
      (framesToWriteAt now now 0 st.settings.fps) 0 0
    simp only [eq_self_iff_true, if_true] at h
    constructor
    · omega
    · omega
  · have h := addLoop_spec
      ⟨pixels.width, pixels.height, pixels.pixelFormat, freshId, true⟩
      (framesToWriteAt now st.recordStartTime st.nAddedFrames st.settings.fps)
      st.nAddedFrames 0
    simp only [hn, if_false] at h
    constructor
    · omega
    · omega

/-- Claim C1, witness: the amended theorem evaluated for the state stRecording
and frame pixSample, discharging the recording, pipe and allocation
hypotheses. -/
theorem C1_witness :
    stRecording.isRecording = true ∧ stRecording.pipeOpen = true ∧
    pixSample.allocated = true ∧
    ((addFrame stRecording pixSample (1/30) 7).1.frames.length
        = stRecording.frames.length + (addFrame stRecording pixSample (1/30) 7).2 ∧
      (stRecording.nAddedFrames = 0 → 1 ≤ (addFrame stRecording pixSample (1/30) 7).2) ∧
      (stRecording.nAddedFrames ≠ 0 → (addFrame stRecording pixSample (1/30) 7).2 =
        framesToWriteAt (1/30) stRecording.recordStartTime stRecording.nAddedFrames
          stRecording.settings.fps)) :=
  ⟨rfl, rfl, rfl, C1_amended_thm stRecording pixSample (1/30) 7 rfl rfl rfl⟩

/-- Claim C2, failing input: on the first submitted frame of a session
(m_nAddedFrames = 0) the pacing computation yields framesToWrite = 0 (the
start time was just reset to now), the loop is entered once through the
first-frame override, and the size_t test written == framesToWrite - 1
compares 0 with SIZE_MAX: the single entry pushed is therefore the
non-owning shared view (owns = false), not the owning copy the claim (and
the comment at line 177 of the source) promises, and the owning copy leaks. -/
theorem C2_failing_eval :
    stFirstFrame.nAddedFrames = 0 ∧
    (addFrame stFirstFrame pixSample 5 42).2 = 1 ∧
    (addFrame stFirstFrame pixSample 5 42).1.frames =
      [{ width := 640, height := 480, pixelFormat := 1, dataId := 42, owns := false }] := by
  refine ⟨rfl, ?_, ?_⟩ <;>
    simp [stFirstFrame, stRecording, pixSample, addFrame, addLoop, framesToWriteAt,
      framesDue, getRecordedDuration, isLastTest, sizeTCard]

/-- Claim C3, failing input: start evaluates the exists/overwrite check on
m_settings — the settings of the previous session, still the defaults here —
rather than on the settings being adopted.  Adopting settings whose output
path exists with overwrite disallowed therefore succeeds and transitions to
Recording, contradicting the claim; conversely, a recorder whose previous
settings name an existing non-overwritable file rejects a start whose new
settings are unobjectionable. -/
theorem C3_failing_eval :
    sTaken.allowOverwrite = false ∧ fileExistsTaken sTaken.outputPath = true ∧
    (start stIdle sTaken false fileExistsTaken true).2 = true ∧
    (start stIdle sTaken false fileExistsTaken true).1.isRecording = true ∧
    (start stIdle sTaken false fileExistsTaken true).1.settings.outputPath = "taken.mp4" ∧
    fileExistsTaken (({} : RecorderSettings).outputPath) = false ∧
    start stPrevTaken {} false fileExistsTaken true = (stPrevTaken, false) := by
  refine ⟨rfl, by decide, ?_, ?_, ?_, by decide, ?_⟩ <;>
    simp [start, stIdle, sTaken, stPrevTaken, fileExistsTaken]

/-- Claim C4, counterexample: an allocated 1x1 frame submitted to a recorder
configured at 640x480 is not rejected: addFrame returns 2 and pushes two
queue entries carrying the mismatched 1x1 dimensions, contradicting the
claim that mismatched frames are rejected with a 0 return. -/
theorem C4_counterexample :
    stRecording.settings.resX = 640 ∧ stRecording.settings.resY = 480 ∧
    pixSmall.allocated = true ∧ pixSmall.width = 1 ∧ pixSmall.height = 1 ∧
    (addFrame stRecording pixSmall (1/10) 7).2 = 2 ∧
    (addFrame stRecording pixSmall (1/10) 7).1.frames =
      [⟨1, 1, 1, 7, false⟩, ⟨1, 1, 1, 7, true⟩] := by
  have hd : framesDue ((10 : ℚ)⁻¹) 0 (getRecordedDuration 1 30) 30 = 2 := by
    norm_num [framesDue, getRecordedDuration]
  have hftw : framesToWriteAt ((10 : ℚ)⁻¹) 0 1 30 = 2 := by
    rw [framesToWriteAt, hd]
    rfl
  have hl0 : isLastTest 0 2 = false := by decide
  have hl1 : isLastTest 1 2 = true := by decide
  have hloop : addLoop ⟨1, 1, 1, 7, true⟩ 2 1 0 =
      ([⟨1, 1, 1, 7, false⟩, ⟨1, 1, 1, 7, true⟩], 2) := by
    rw [addLoop]
    simp only [hl0, if_false, Nat.zero_lt_succ, or_true, if_true]
    rw [addLoop]
    simp only [hl1, if_true, Nat.lt_irrefl, Nat.one_lt_two, or_true, if_true]
    rw [addLoop]
    simp
  refine ⟨rfl, rfl, rfl, rfl, rfl, ?_, ?_⟩ <;>
    simp [addFrame, stRecording, pixSmall, hftw, hloop]

/-- Claim C4, amended: addFrame rejects (returns 0 and leaves the state
unchanged) exactly the unallocated-pixels case among frame defects; it
performs no dimension check, so the count it returns is the same whatever
the dimensions of the supplied frame. -/
theorem C4_amended_thm (st : RecorderState) (pix : OfPixels) (now : ℚ) (freshId w2 h2 : Nat) :
    (pix.allocated = false → addFrame st pix now freshId = (st, 0)) ∧
    (addFrame st { pix with width := w2, height := h2 } now freshId).2
      = (addFrame st pix now freshId).2 := by
  constructor
  · intro h
    simp [addFrame, h]
  · by_cases hr : st.isRecording <;> by_cases hp : st.pipeOpen <;>
      by_cases ha : pix.allocated <;>
      simp only [addFrame, hr, hp, ha, Bool.not_true, Bool.not_false, if_true, if_false,
        Bool.false_eq_true]
    by_cases hn : st.nAddedFrames = 0
    · simp only [hn, if_true]
      rw [(addLoop_spec ⟨w2, h2, pix.pixelFormat, freshId, true⟩ _ _ _).2,
        (addLoop_spec ⟨pix.width, pix.height, pix.pixelFormat, freshId, true⟩ _ _ _).2]
    · simp only [hn, if_false]
      rw [(addLoop_spec ⟨w2, h2, pix.pixelFormat, freshId, true⟩ _ _ _).2,
        (addLoop_spec ⟨pix.width, pix.height, pix.pixelFormat, freshId, true⟩ _ _ _).2]

/-- Claim C4, witness: the amended theorem evaluated at an unallocated frame
(rejected with 0, state untouched) and at a pair of allocated frames that
differ only in their dimensions (same accepted count). -/
theorem C4_witness :
    addFrame stRecording pixUnalloc (1/10) 7 = (stRecording, 0) ∧
    (addFrame stRecording { pixSample with width := 5, height := 6 } (1/10) 7).2
      = (addFrame stRecording pixSample (1/10) 7).2 :=
  ⟨(C4_amended_thm stRecording pixUnalloc (1/10) 7 5 6).1 rfl,
   (C4_amended_thm stRecording pixSample (1/10) 7 5 6).2⟩

/-- Helper: in any terminating inner-loop segment, if every fwrite record
accumulated so far is a successful full write, then either the loop exits
without setting needsQuit and every accumulated record is still a success, or
it exits with needsQuit set and every record except the last is a success —
a failed write is immediately followed by the break, so no further fwrite
happens after it. -/
theorem innerDrain_fail_isolated (obs : Nat → DrainObs) (pipeOpen : Bool) (dl : Nat) :
    ∀ (fuel i : Nat) (queue : List PixEntry) (acc : List WriteRec)
      (i2 : Nat) (q2 : List PixEntry) (acc2 : List WriteRec) (nq : Bool),
    innerDrain obs pipeOpen dl fuel i queue acc = some (i2, q2, acc2, nq) →
    (∀ r ∈ acc, failRec dl r = false) →
    (if nq then ∀ r ∈ acc2.dropLast, failRec dl r = false
     else ∀ r ∈ acc2, failRec dl r = false) := by
  intro fuel
  induction fuel with
  | zero =>
    intro i queue acc i2 q2 acc2 nq h hacc
    simp [innerDrain] at h
  | succ fuel ih =>
    intro i queue acc i2 q2 acc2 nq h hacc
    cases queue with
    | nil =>
      simp only [innerDrain, Option.some.injEq, Prod.mk.injEq] at h
      obtain ⟨h1, h2, h3, h4⟩ := h
      subst h3
      subst h4
      simpa using hacc
    | cons p rest =>
      simp only [innerDrain] at h
      by_cases hq : (obs i).shouldQuit
      · simp only [hq, if_true, Option.some.injEq, Prod.mk.injEq] at h
        obtain ⟨h1, h2, h3, h4⟩ := h
        subst h3
        subst h4
        simpa using hacc
      · simp only [hq, if_false, Bool.false_eq_true] at h
        by_cases ht : (obs i).timeDue
        · simp only [ht, if_true] at h
          by_cases hf : ((if pipeOpen then (obs i).writeBytes else 0) = 0 ∨
              (if pipeOpen then (obs i).writeBytes else 0) ≠ dl ∨ (obs i).writeErr = true)
          · simp only [if_pos hf, Option.some.injEq, Prod.mk.injEq] at h
            obtain ⟨h1, h2, h3, h4⟩ := h
            subst h3
            subst h4
            simp only [if_true]
            cases hpo : pipeOpen
            · subst hpo
              simp only [if_false, Bool.false_eq_true] at *
              intro r hr
              exact hacc r (List.mem_of_mem_dropLast hr)
            · subst hpo
              simp only [if_true] at *
              intro r hr
              rw [List.dropLast_concat] at hr
              exact hacc r hr
          · simp only [if_neg hf] at h
            have hgood : ∀ r ∈ (if pipeOpen then
                acc ++ [⟨p, (obs i).writeBytes, (obs i).writeErr⟩] else acc),
                failRec dl r = false := by
              push_neg at hf
              obtain ⟨hf1, hf2, hf3⟩ := hf
              cases hpo : pipeOpen
              · simpa using hacc
              · subst hpo
                simp only [if_true] at hf1 hf2 ⊢
                intro r hr
                rcases List.mem_append.1 hr with hr | hr
                · exact hacc r hr
                · simp only [List.mem_singleton] at hr
                  subst hr
                  have hdl : dl ≠ 0 := hf2 ▸ hf1
                  simp [failRec, hf1, hf2, hf3, hdl]
            exact ih (i + 1) rest _ i2 q2 acc2 nq h hgood
        · simp only [ht, if_false, Bool.false_eq_true] at h
          exact ih (i + 1) (p :: rest) acc i2 q2 acc2 nq h hacc

/-- Helper: lifting the failure isolation through the outer loop — in any
terminating outer-loop run every fwrite record except possibly the last is a
successful full write. -/
theorem outerDrain_fail_isolated (outerObs : Nat → Bool × Bool) (obs : Nat → DrainObs)
    (pipeOpen : Bool) (dl innerFuel : Nat) :
    ∀ (fuel k i : Nat) (queue : List PixEntry) (acc : List WriteRec)
      (q2 : List PixEntry) (acc2 : List WriteRec),
    outerDrain outerObs obs pipeOpen dl innerFuel fuel k i queue acc = some (q2, acc2) →
    (∀ r ∈ acc, failRec dl r = false) →
    ∀ r ∈ acc2.dropLast, failRec dl r = false := by
  intro fuel
  induction fuel with
  | zero =>
    intro k i queue acc q2 acc2 h hacc
    simp [outerDrain] at h
  | succ fuel ih =>
    intro k i queue acc q2 acc2 h hacc
    simp only [outerDrain] at h
    by_cases hodds : ((outerObs k).1 && !(outerObs k).2) = true
    · rw [if_pos hodds] at h
      cases hinner : innerDrain obs pipeOpen dl innerFuel i queue acc with
      | none => rw [hinner] at h; exact absurd h (by simp)
      | some res =>
        obtain ⟨i2, q2i, acc2i, nq⟩ := res
        rw [hinner] at h
        have hgood := innerDrain_fail_isolated obs pipeOpen dl innerFuel i queue acc
          i2 q2i acc2i nq hinner hacc
        cases nq with
        | true =>
          simp only [if_true, Option.some.injEq, Prod.mk.injEq] at h
          obtain ⟨h1, h2⟩ := h
          subst h1
          subst h2
          simpa using hgood
        | false =>
          simp only [if_false, Bool.false_eq_true] at h
          exact ih (k + 1) i2 q2i acc2i q2 acc2 h (by simpa using hgood)
    · rw [if_neg hodds] at h
      simp only [Option.some.injEq, Prod.mk.injEq] at h
      obtain ⟨h1, h2⟩ := h
      subst h1
      subst h2
      intro r hr
      exact hacc r (List.mem_of_mem_dropLast hr)

/-- Claim C5: in every terminating run of the drain, the pipe ends closed and
isReady ends true (closePipe is called unconditionally on loop exit), and
every fwrite record except possibly the last is a successful full write of
dataLength bytes with no error — so once a write fails (short write or
ferror), no further queued frame is written before the pipe is closed, even
if the queue is still non-empty. -/
theorem C5_thm (outerObs : Nat → Bool × Bool) (obs : Nat → DrainObs)
    (outerFuel innerFuel : Nat) (st st2 : RecorderState) (recs : List WriteRec)
    (h : processFrame outerObs obs outerFuel innerFuel st = some (st2, recs)) :
    st2.pipeOpen = false ∧ st2.isReady = true ∧
    ∀ r ∈ recs.dropLast, failRec (dataLength st.settings) r = false := by
  unfold processFrame at h
  cases houter : outerDrain outerObs obs st.pipeOpen (dataLength st.settings) innerFuel
      outerFuel 0 0 st.frames [] with
  | none => rw [houter] at h; exact absurd h (by simp)
  | some pr =>
    obtain ⟨q2, acc2⟩ := pr
    rw [houter] at h
    simp only [Option.some.injEq, Prod.mk.injEq] at h
    obtain ⟨h1, h2⟩ := h
    subst h2
    refine ⟨by rw [← h1], by rw [← h1], ?_⟩
    exact outerDrain_fail_isolated outerObs obs st.pipeOpen (dataLength st.settings)
      innerFuel outerFuel 0 0 st.frames [] q2 acc2 houter (by simp)

/-- Claim C5, witness: a concrete drain over three queued 6-byte frames in
which the second fwrite is a short write of 0 bytes: the run stops there,
the third frame is still queued (never written), the pipe is closed and
isReady is true. -/
theorem C5_witness :
    processFrame ooAlwaysW obsFailW 2 10 stDrainW = some (stDrain2W, recsFailW) ∧
    stDrain2W.pipeOpen = false ∧ stDrain2W.isReady = true ∧
    (∀ r ∈ recsFailW.dropLast, failRec (dataLength stDrainW.settings) r = false) ∧
    stDrain2W.frames ≠ [] :=
  have hrun : processFrame ooAlwaysW obsFailW 2 10 stDrainW
      = some (stDrain2W, recsFailW) := rfl
  ⟨hrun, (C5_thm ooAlwaysW obsFailW 2 10 stDrainW stDrain2W recsFailW hrun).1,
    (C5_thm ooAlwaysW obsFailW 2 10 stDrainW stDrain2W recsFailW hrun).2.1,
    (C5_thm ooAlwaysW obsFailW 2 10 stDrainW stDrain2W recsFailW hrun).2.2,
    by decide⟩

/-- Claim C6: on the first submitted frame of a session (logical frame
counter zero), addFrame made while recording with a valid pipe and allocated
pixels pushes at least one queue entry and returns a count of at least 1,
whatever instant `now` the pacing delta is computed at. -/
theorem C6_thm (st : RecorderState) (pixels : OfPixels) (now : ℚ) (freshId : Nat)
    (hr : st.isRecording = true) (hp : st.pipeOpen = true) (ha : pixels.allocated = true)
    (hn : st.nAddedFrames = 0) :
    1 ≤ (addFrame st pixels now freshId).2 ∧
    st.frames.length + 1 ≤ (addFrame st pixels now freshId).1.frames.length := by
  simp only [addFrame, hr, hp, ha, hn, Bool.not_true, Bool.false_eq_true, if_false,
    if_true, eq_self_iff_true, List.length_append]
  have hproj : ({ st with recordStartTime := now, lastFrameTime := now }
      : RecorderState).settings.fps = st.settings.fps := rfl
  rw [hproj]
  have h := addLoop_spec
    ⟨pixels.width, pixels.height, pixels.pixelFormat, freshId, true⟩
    (framesToWriteAt now now 0 st.settings.fps) 0 0
  simp only [eq_self_iff_true, if_true] at h
  constructor <;> omega

/-- Claim C6, witness: the first-frame theorem evaluated for stFirstFrame and
pixSample, where the computed delta is exactly 0 (the start time is reset to
now in the same call) and still one entry is pushed. -/
theorem C6_witness :
    stFirstFrame.isRecording = true ∧ stFirstFrame.pipeOpen = true ∧
    pixSample.allocated = true ∧ stFirstFrame.nAddedFrames = 0 ∧
    (1 ≤ (addFrame stFirstFrame pixSample 5 42).2 ∧
     stFirstFrame.frames.length + 1 ≤ (addFrame stFirstFrame pixSample 5 42).1.frames.length) :=
  ⟨rfl, rfl, rfl, rfl, C6_thm stFirstFrame pixSample 5 42 rfl rfl rfl rfl⟩

/-- Helper: when no quit is signalled and every fwrite is a successful full
write of dl bytes (dl nonzero) with the pipe open, a terminating inner-loop
segment drains the whole queue: it exits with the queue empty, needsQuit
false, and one successful record appended per queued frame, in order. -/
theorem innerDrain_complete (obs : Nat → DrainObs) (dl : Nat)
    (hok : ∀ i, (obs i).shouldQuit = false ∧ (obs i).writeBytes = dl ∧ (obs i).writeErr = false)
    (hdl : dl ≠ 0) :
    ∀ (fuel i : Nat) (queue : List PixEntry) (acc : List WriteRec)
      (i2 : Nat) (q2 : List PixEntry) (acc2 : List WriteRec) (nq : Bool),
    innerDrain obs true dl fuel i queue acc = some (i2, q2, acc2, nq) →
    q2 = [] ∧ nq = false ∧
      acc2 = acc ++ queue.map (fun p => ⟨p, dl, false⟩) := by
  intro fuel
  induction fuel with
  | zero =>
    intro i queue acc i2 q2 acc2 nq h
    simp [innerDrain] at h
  | succ fuel ih =>
    intro i queue acc i2 q2 acc2 nq h
    cases queue with
    | nil =>
      simp only [innerDrain, Option.some.injEq, Prod.mk.injEq] at h
      obtain ⟨h1, h2, h3, h4⟩ := h
      exact ⟨h2.symm, h4.symm, by simp [← h3]⟩
    | cons p rest =>
      simp only [innerDrain] at h
      rw [if_neg (by simp [(hok i).1])] at h
      by_cases ht : (obs i).timeDue
      · rw [if_pos ht] at h
        simp only [if_true] at h
        rw [if_neg (by
          push_neg
          refine ⟨?_, ?_, ?_⟩
          · rw [(hok i).2.1]; exact hdl
          · rw [(hok i).2.1]
          · simp [(hok i).2.2])] at h
        obtain ⟨hq2, hnq, hacc⟩ := ih (i + 1) rest
          (acc ++ [⟨p, (obs i).writeBytes, (obs i).writeErr⟩]) i2 q2 acc2 nq h
        refine ⟨hq2, hnq, ?_⟩
        rw [hacc, (hok i).2.1, (hok i).2.2]
        simp
      · rw [if_neg ht] at h
        exact ih (i + 1) (p :: rest) acc i2 q2 acc2 nq h

/-- Helper: a terminating outer-loop run started with an empty queue neither
consumes nor writes anything: it ends with the empty queue and the records it
was given. -/
theorem outerDrain_empty (outerObs : Nat → Bool × Bool) (obs : Nat → DrainObs)
    (pipeOpen : Bool) (dl innerFuel : Nat) :
    ∀ (fuel k i : Nat) (acc : List WriteRec) (q2 : List PixEntry) (acc2 : List WriteRec),
    outerDrain outerObs obs pipeOpen dl innerFuel fuel k i [] acc = some (q2, acc2) →
    q2 = [] ∧ acc2 = acc := by
  intro fuel
  induction fuel with
  | zero =>
    intro k i acc q2 acc2 h
    simp [outerDrain] at h
  | succ fuel ih =>
    intro k i acc q2 acc2 h
    simp only [outerDrain] at h
    by_cases hodds : ((outerObs k).1 && !(outerObs k).2) = true
    · rw [if_pos hodds] at h
      cases innerFuel with
      | zero => simp [innerDrain] at h
      | succ innerFuel2 =>
        simp only [innerDrain] at h
        exact ih (k + 1) i acc q2 acc2 h
    · rw [if_neg hodds] at h
      simp only [Option.some.injEq, Prod.mk.injEq] at h
      exact ⟨h.1.symm, h.2.symm⟩

/-- Claim C7: stop only clears the recording flag — settings aside, the
queue, the pipe, the ready flag and the quit flag are untouched and the sink
is not closed — and a drain whose first outer check still observed
recording = true, with no quit signal and only successful full writes,
pops and writes every frame that was queued, in order, before closePipe runs
(pipe closed, ready true at the end of the run). -/
theorem C7_thm (st : RecorderState) (outerObs : Nat → Bool × Bool) (obs : Nat → DrainObs)
    (outerFuel innerFuel : Nat) (st2 : RecorderState) (recs : List WriteRec)
    (hrec0 : (outerObs 0).1 = true)
    (hok : ∀ i, (obs i).shouldQuit = false ∧
      (obs i).writeBytes = dataLength st.settings ∧ (obs i).writeErr = false)
    (hq : ∀ k, (outerObs k).2 = false)
    (hdl : dataLength st.settings ≠ 0) (hp : st.pipeOpen = true)
    (hrun : processFrame outerObs obs outerFuel innerFuel st = some (st2, recs)) :
    ((stop st).isRecording = false ∧ (stop st).pipeOpen = st.pipeOpen ∧
      (stop st).isReady = st.isReady ∧ (stop st).frames = st.frames ∧
      (stop st).shouldQuitProcessing = st.shouldQuitProcessing) ∧
    st2.frames = [] ∧ recs.map WriteRec.entry = st.frames ∧
    st2.pipeOpen = false ∧ st2.isReady = true := by
  refine ⟨⟨rfl, rfl, rfl, rfl, rfl⟩, ?_⟩
  unfold processFrame at hrun
  rw [hp] at hrun
  cases outerFuel with
  | zero => simp [outerDrain] at hrun
  | succ outerFuel2 =>
    rw [outerDrain] at hrun
    rw [if_pos (by simp [hrec0, hq 0])] at hrun
    cases hinner : innerDrain obs true (dataLength st.settings) innerFuel 0 st.frames [] with
    | none => rw [hinner] at hrun; exact absurd hrun (by simp)
    | some res =>
      obtain ⟨i2, q2i, acc2i, nq⟩ := res
      rw [hinner] at hrun
      obtain ⟨hq2i, hnq, hacc2i⟩ := innerDrain_complete obs (dataLength st.settings) hok hdl
        innerFuel 0 st.frames [] i2 q2i acc2i nq hinner
      subst hnq
      simp only [if_false, Bool.false_eq_true] at hrun
      subst hq2i
      cases houter2 : outerDrain outerObs obs true (dataLength st.settings) innerFuel
          outerFuel2 1 i2 [] acc2i with
      | none => rw [houter2] at hrun; exact absurd hrun (by simp)
      | some pr =>
        obtain ⟨q2, acc2⟩ := pr
        obtain ⟨hq2, hacc2⟩ := outerDrain_empty outerObs obs true (dataLength st.settings)
          innerFuel outerFuel2 1 i2 acc2i q2 acc2 houter2
        subst hq2
        subst hacc2
        rw [houter2] at hrun
        simp only [Option.some.injEq, Prod.mk.injEq] at hrun
        obtain ⟨h1, h2⟩ := hrun
        subst h2
        refine ⟨by rw [← h1], ?_, by rw [← h1], by rw [← h1]⟩
        rw [hacc2i]
        simp only [List.nil_append, List.map_map]
        exact List.map_id st.frames

/-- Claim C7, witness: a session stopped right after the drain entered its
loop — recording observed true at the first outer check only — still writes
both queued 6-byte frames in order before the pipe closes. -/
theorem C7_witness :
    processFrame ooStopW obsOkW 3 10 stDrainOkW = some (stDrainOk2W, recsOkW) ∧
    (((stop stDrainOkW).isRecording = false ∧
      (stop stDrainOkW).pipeOpen = stDrainOkW.pipeOpen ∧
      (stop stDrainOkW).isReady = stDrainOkW.isReady ∧
      (stop stDrainOkW).frames = stDrainOkW.frames ∧
      (stop stDrainOkW).shouldQuitProcessing = stDrainOkW.shouldQuitProcessing) ∧
     stDrainOk2W.frames = [] ∧ recsOkW.map WriteRec.entry = stDrainOkW.frames ∧
     stDrainOk2W.pipeOpen = false ∧ stDrainOk2W.isReady = true) :=
  have hrun : processFrame ooStopW obsOkW 3 10 stDrainOkW
      = some (stDrainOk2W, recsOkW) := rfl
  ⟨hrun, C7_thm stDrainOkW ooStopW obsOkW 3 10 stDrainOk2W recsOkW rfl
    (fun _ => ⟨rfl, rfl, rfl⟩) (fun _ => rfl) (by decide) rfl hrun⟩

/-- Claim C8: the pacing function framesDue is monotonically non-decreasing
in now for every fixed startTime, recordedDuration and fps > 0. -/
theorem C8_thm (now1 now2 startTime dur fps : ℚ) (hfps : 0 < fps) (h : now1 ≤ now2) :
    framesDue now1 startTime dur fps ≤ framesDue now2 startTime dur fps := by
  unfold framesDue
  apply Int.floor_mono
  have h2 : now1 - startTime - dur ≤ now2 - startTime - dur := by linarith
  exact mul_le_mul_of_nonneg_right h2 hfps.le

/-- Claim C8, witness: the monotonicity theorem evaluated at fps = 30 and the
instants 1 and 2. -/
theorem C8_witness :
    (0 : ℚ) < 30 ∧ (1 : ℚ) ≤ 2 ∧ framesDue 1 0 0 30 ≤ framesDue 2 0 0 30 :=
  ⟨by norm_num, by norm_num, C8_thm 1 2 0 0 30 (by norm_num) (by norm_num)⟩

/-- Claim C9: calling start while already recording returns false and leaves
the entire state — settings, counters, queue, pipe and flags — unchanged. -/
theorem C9_thm (st : RecorderState) (s : RecorderSettings) (force : Bool)
    (fe : String → Bool) (po : Bool) (h : st.isRecording = true) :
    start st s force fe po = (st, false) := by
  simp [start, h]

/-- Claim C9, witness: the already-recording theorem evaluated for
stRecording. -/
theorem C9_witness :
    stRecording.isRecording = true ∧
    start stRecording sTaken false fileExistsTaken true = (stRecording, false) :=
  ⟨rfl, C9_thm stRecording sTaken false fileExistsTaken true rfl⟩

/-- Claim C10: a forced start (forceIfNotReady = true) issued while the
previous recording is still draining (not ready) that then fails the empty
output path validation returns false, but has already set the quit signal
for the old draining context and cleared the frame queue — the prior
session in-flight work is lost despite the failure. -/
theorem C10_thm (st : RecorderState) (s : RecorderSettings) (fe : String → Bool) (po : Bool)
    (h1 : st.isRecording = false) (h2 : st.isReady = false) (h3 : s.outputPath = "") :
    start st s true fe po = ({ st with shouldQuitProcessing := true, frames := [] }, false) := by
  simp [start, h1, h2, h3]

/-- Claim C10, witness: the forced-start theorem evaluated for stDraining,
whose queue held one frame that the failed call destroys. -/
theorem C10_witness :
    stDraining.isRecording = false ∧ stDraining.isReady = false ∧
    sEmptyPath.outputPath = "" ∧ stDraining.frames ≠ [] ∧
    start stDraining sEmptyPath true (fun _ => false) true
      = ({ stDraining with shouldQuitProcessing := true, frames := [] }, false) :=
  ⟨rfl, rfl, rfl, by decide, C10_thm stDraining sEmptyPath (fun _ => false) true rfl rfl rfl⟩
